import Mathlib

/-!
Shallow embedding of the BoxED dataset importer (files `helpers.py` and
`boxed_importer.py`) and proofs about its file-discovery and record-assembly
pipeline.

Conventions of the embedding:
* Python strings are `List Char`; a Python string literal `"s"` is written
  `"s".data`.
* Python integers are `Int` (or `Nat` where the source value is a count or an
  index that is provably non-negative, e.g. participant and scene numbers,
  which come from parsing digit runs).
* The result of `os.walk` is abstracted as an input list of
  (directory path, file name) pairs given in discovery order.
* File contents (the values produced by `json.load`) are abstracted as an
  oracle function from a file path to the parsed list of records.
* Fallible Python operations (tuple indexing, `list.index`, attribute access)
  return `Except PyErr`; an uncaught Python exception is an `Except.error`.
* `exit(1)` (process termination, as opposed to an exception reported to the
  caller) is a dedicated constructor `PyResult.exitP`.
-/

namespace BoxED

/-- Python exception kinds that the embedded code can raise.  `invalidObjectName`
is the error class the specification's taxonomy assigns to bad `get_grasp_poses`
arguments; it is part of the spec's vocabulary and is never raised by the code. -/
inductive PyErr where
  | indexError
  | attributeError
  | valueError
  | invalidObjectName
deriving DecidableEq

/-- Result of a Python call in a context where the code may call `exit`:
`ok` is a normal return, `raiseE` an exception propagated to the caller,
`exitP` termination of the whole process via `exit(code)`. -/
inductive PyResult (α : Type) where
  | ok (a : α)
  | raiseE (e : PyErr)
  | exitP (code : Nat)
deriving DecidableEq

instance {ε α : Type} [DecidableEq ε] [DecidableEq α] : DecidableEq (Except ε α) := fun x y =>
  match x, y with
  | .error a, .error b =>
    if h : a = b then isTrue (by rw [h]) else isFalse (fun hc => by cases hc; exact h rfl)
  | .error _, .ok _ => isFalse (fun hc => by cases hc)
  | .ok _, .error _ => isFalse (fun hc => by cases hc)
  | .ok a, .ok b =>
    if h : a = b then isTrue (by rw [h]) else isFalse (fun hc => by cases hc; exact h rfl)

/-! ## helpers.py : get_clean_name -/

/-- Index of the first occurrence of `c` in `s`, if any. -/
def firstIdx : List Char → Char → Option Nat
  | [], _ => none
  | x :: xs, c => if x = c then some 0 else (firstIdx xs c).map (· + 1)

/-- Python `str.find`: index of the first occurrence, `-1` when absent
(`helpers.py` lines 44-45). -/
def strFind (s : List Char) (c : Char) : Int :=
  match firstIdx s c with
  | none => -1
  | some k => (k : Int)

/-- The `delete_idx` computed by `helpers.get_clean_name` (lines 44-50):
initialized to `len(name)`; if at least one delimiter is present, replaced by
`min(idx1, idx2)` when that minimum is positive and by `max(idx1, idx2)`
otherwise. -/
def delete_idx (name : List Char) : Int :=
  let idx1 := strFind name '('
  let idx2 := strFind name '-'
  if idx1 ≠ -1 ∨ idx2 ≠ -1 then
    if min idx1 idx2 > 0 then min idx1 idx2 else max idx1 idx2
  else (name.length : Int)

/-- `helpers.get_clean_name` (`helpers.py` lines 37-52): `name[0:delete_idx]`
is `take` (the reachable `delete_idx` is never negative: on the branch taken,
`max` ranges over at least one non-negative index). -/
def get_clean_name (name : List Char) : List Char :=
  name.take (delete_idx name).toNat

/-- The name-normalization rule as amended: with both delimiters present,
truncate at the smaller first-occurrence index unless that smaller index is 0,
in which case truncate at the larger; with exactly one delimiter present at
index `a`, truncate at `a` (so a sole leading delimiter yields the empty
string); with neither present, return the name unchanged. -/
def normalizeAmended (name : List Char) : List Char :=
  match firstIdx name '(', firstIdx name '-' with
  | none, none => name
  | some a, none => name.take a
  | none, some b => name.take b
  | some a, some b => if min a b = 0 then name.take (max a b) else name.take (min a b)

/-! ## helpers.py : file_crawler -/

/-- Does `pat` occur at the head of `hay`? (Building block of Python's `in`.) -/
def listStarts : List Char → List Char → Bool
  | [], _ => true
  | _ :: _, [] => false
  | p :: ps, h :: hs => p == h && listStarts ps hs

/-- Python substring containment `pat in hay`. -/
def listHasSub (pat : List Char) : List Char → Bool
  | [] => pat.isEmpty
  | c :: hs => listStarts pat (c :: hs) || listHasSub pat hs

/-- State for scanning a string for maximal digit runs: runs finished so far,
and the value of the run currently being read, if inside one. -/
def digitRunsStep (st : List Nat × Option Nat) (c : Char) : List Nat × Option Nat :=
  if c.isDigit then
    let d := c.toNat - 48
    match st.2 with
    | none => (st.1, some d)
    | some n => (st.1, some (n * 10 + d))
  else
    match st.2 with
    | none => (st.1, none)
    | some n => (st.1 ++ [n], none)

/-- `re.findall(r'\d+', s)` mapped through `int`: the values of the maximal
digit runs of `s`, in left-to-right order (`helpers.py` line 20). -/
def digitRuns (s : List Char) : List Nat :=
  match s.foldl digitRunsStep ([], none) with
  | (runs, none) => runs
  | (runs, some n) => runs ++ [n]

/-- `os.path.join(path, name)` for a relative `name`. -/
def pyJoin (d n : List Char) : List Char := d ++ '/' :: n

/-- Python tuple indexing `l[i]` for a non-negative index: `IndexError` when
out of range. -/
def pyGetNat (l : List Nat) (i : Nat) : Except PyErr Nat :=
  match l[i]? with
  | some v => .ok v
  | none => .error .indexError

/-- Prepend one discovered (path, identity) pair to the result of scanning the
remaining entries. -/
def consPair (p : List Char) (i : List Nat) :
    Except PyErr (List (List Char) × List (List Nat)) →
    Except PyErr (List (List Char) × List (List Nat))
  | .error e => .error e
  | .ok (ps, ns) => .ok (p :: ps, i :: ns)

/-- The `os.walk` loop of `helpers.file_crawler` (lines 16-28): keep every file
whose name contains `target`, pair it with the digit runs of its directory
path; with `uniq_seqs` set, skip entries unless the scene number (`tuple[1]`,
an `IndexError` on a too-short identity) is 1 and the participant number
(`tuple[0]`) is at least 26, mirroring the short-circuit
`part_scene_number[1] != 1 or part_scene_number[0] < 26`. -/
def crawlGather (uniq : Bool) (target : List Char) :
    List (List Char × List Char) → Except PyErr (List (List Char) × List (List Nat))
  | [] => .ok ([], [])
  | (d, n) :: rest =>
    if listHasSub target n then
      let idT := digitRuns d
      if uniq then
        match pyGetNat idT 1 with
        | .error e => .error e
        | .ok s =>
          if s ≠ 1 then crawlGather uniq target rest
          else
            match pyGetNat idT 0 with
            | .error e => .error e
            | .ok pnum =>
              if pnum < 26 then crawlGather uniq target rest
              else consPair (pyJoin d n) idT (crawlGather uniq target rest)
      else consPair (pyJoin d n) idT (crawlGather uniq target rest)
    else crawlGather uniq target rest

/-- Python's comparison on the pairs `(identity tuple, path string)` fed to
`sorted` in `helpers.file_crawler` lines 32-33: lexicographic on the identity
tuples first (prefix smaller), then on the path strings. -/
def pyTupLe (a b : List Nat × List Char) : Prop :=
  a.1 < b.1 ∨ (a.1 = b.1 ∧ a.2 ≤ b.2)

instance : DecidableRel pyTupLe := fun a b =>
  inferInstanceAs (Decidable (a.1 < b.1 ∨ (a.1 = b.1 ∧ a.2 ≤ b.2)))

instance : IsTrans (List Nat × List Char) pyTupLe where
  trans a b c hab hbc := by
    rcases hab with h1 | ⟨h1, h1'⟩ <;> rcases hbc with h2 | ⟨h2, h2'⟩
    · exact Or.inl (h1.trans h2)
    · exact Or.inl (h2 ▸ h1)
    · exact Or.inl (h1 ▸ h2)
    · exact Or.inr ⟨h1.trans h2, h1'.trans h2'⟩

instance : IsTotal (List Nat × List Char) pyTupLe where
  total a b := by
    rcases lt_trichotomy a.1 b.1 with h | h | h
    · exact Or.inl (Or.inl h)
    · rcases le_total a.2 b.2 with h' | h'
      · exact Or.inl (Or.inr ⟨h, h'⟩)
      · exact Or.inr (Or.inr ⟨h.symm, h'⟩)
    · exact Or.inr (Or.inl h)

/-- Python's `sorted`: a stable sort by the given total preorder.  Since
`pyTupLe` is an antisymmetric total preorder here, any sorted permutation is
the unique one, so `List.insertionSort` models `sorted` exactly. -/
def pySorted (l : List (List Nat × List Char)) : List (List Nat × List Char) :=
  List.insertionSort pyTupLe l

/-- `helpers.file_crawler` (lines 6-34): gather matching files with their
identities, then
`all_file_paths = [x for _, x in sorted(zip(part_scene_nums, all_file_paths))]`
followed by
`part_scene_nums = [x for x, _ in sorted(zip(part_scene_nums, all_file_paths))]`
where the second `zip` already sees the reassigned (sorted) path list. -/
def file_crawler (entries : List (List Char × List Char)) (target : List Char)
    (uniq : Bool) : Except PyErr (List (List Char) × List (List Nat)) :=
  match crawlGather uniq target entries with
  | .error e => .error e
  | .ok (all_file_paths, part_scene_nums) =>
    let paths2 := (pySorted (part_scene_nums.zip all_file_paths)).map Prod.snd
    let nums2 := (pySorted (part_scene_nums.zip paths2)).map Prod.fst
    .ok (paths2, nums2)

/-- Spec-side view of discovery: the matched entries, as
(identity, joined path) pairs, in discovery order. -/
def discoveredPairs (entries : List (List Char × List Char)) (target : List Char) :
    List (List Nat × List Char) :=
  (entries.filter (fun e => listHasSub target e.2)).map
    (fun e => (digitRuns e.1, pyJoin e.1 e.2))

/-! ## boxed_importer.py : data model

Numeric payloads (matrix and vector entries) are modeled as integers; none of
the verified claims depends on floating-point semantics.  Deep inheritance
(`Pose` → `PoseWithTime`, `Obj` → `ObjWithTraj`) is flattened into records
carrying the inherited attributes, as no behavioral dispatch depends on it. -/

/-- `Pose` (`boxed_importer.py` lines 10-15): a rotation matrix and a
translation vector. -/
structure Pose where
  pickRot : List (List Int)
  pickTrans : List Int
deriving DecidableEq, Inhabited

/-- `PoseWithTime` (lines 18-24): a pose plus a timestamp in milliseconds
relative to the scene-local master clock. -/
structure PoseWithTime where
  rot : List (List Int)
  trans : List Int
  time_stamp : Int
deriving DecidableEq, Inhabited

/-- One element of a parsed trajectory JSON array (§6 of the spec: fields
`rotation`, `translation`, `timeStamp`).  `json.load` materializes it as a
Python dict with exactly these keys. -/
structure TrajRecord where
  recRot : List (List Int)
  recTrans : List Int
  recTime : Int
deriving DecidableEq, Inhabited

/-- Python dict subscripting `rec["rotation"]` on a parsed trajectory record:
the key is present (§6), so the lookup returns the field. -/
def pyDictRot (r : TrajRecord) : List (List Int) := r.recRot

/-- Python dict subscripting `rec["translation"]`. -/
def pyDictTrans (r : TrajRecord) : List Int := r.recTrans

/-- Python dict subscripting `rec["timeStamp"]`. -/
def pyDictTime (r : TrajRecord) : Int := r.recTime

/-- Python attribute access `rec.rotation` (and likewise `.translation`,
`.timeStamp`) on a parsed trajectory record: `json.load` yields plain dict
objects, which expose their keys only through subscripting, so attribute
access raises `AttributeError` unconditionally.  This is what
`Scene.add_cam_traj` (`boxed_importer.py` line 104) does. -/
def pyAttrGet (α : Type) (_ : TrajRecord) : Except PyErr α := .error .attributeError

/-- `ObjWithTraj` (lines 27-51, hierarchy flattened): canonical name, unique
id, pick and place poses, and the trajectory loaded afterwards. -/
structure ObjWithTraj where
  name : List Char
  unique_id : Int
  pick_pose : Pose
  place_pose : Pose
  trajectory : List PoseWithTime
deriving DecidableEq, Inhabited

/-- `Scene` (lines 63-72). -/
structure Scene where
  scene_num : Nat
  objs_info : List ObjWithTraj
  cam_traj : List PoseWithTime
deriving DecidableEq, Inhabited

/-- `Participant` (lines 108-113). -/
structure Participant where
  part_num : Nat
  scenes : List Scene
deriving DecidableEq, Inhabited

/-! ## boxed_importer.py : trajectory attachment -/

/-- `ObjWithTraj.add_traj` (lines 53-60): append one `PoseWithTime` per parsed
record, in file order, reading each field by dict subscripting.  `records` is
the parsed content of the trajectory file. -/
def add_traj (o : ObjWithTraj) (records : List TrajRecord) : ObjWithTraj :=
  { o with trajectory :=
      o.trajectory ++ records.map (fun r => ⟨pyDictRot r, pyDictTrans r, pyDictTime r⟩) }

/-- `Scene.add_cam_traj` (lines 98-105): append one `PoseWithTime` per parsed
record — but every field is read by attribute access on a dict, which raises
`AttributeError`. -/
def add_cam_traj (cur : List PoseWithTime) : List TrajRecord → Except PyErr (List PoseWithTime)
  | [] => .ok cur
  | r :: rest =>
    match pyAttrGet (List (List Int)) r with
    | .error e => .error e
    | .ok rot =>
      match pyAttrGet (List Int) r with
      | .error e => .error e
      | .ok tr =>
        match pyAttrGet Int r with
        | .error e => .error e
        | .ok ts => add_cam_traj (cur ++ [⟨rot, tr, ts⟩]) rest

/-- The `for file in scene_files: if obj.name in file: obj.add_traj(file); break`
loop of `Scene.add_obj_traj` (lines 91-96): the first file whose path contains
the object's name, if any. -/
def findTrajFile (name : List Char) : List (List Char) → Option (List Char)
  | [] => none
  | f :: fs => if listHasSub name f then some f else findTrajFile name fs

/-- `Scene.add_obj_traj` (lines 89-96): for each object, load the first
matching file of `scene_files`; an object with no match keeps its trajectory;
no file is ever removed from `scene_files`.  `readFile` is the parsed content
of each file. -/
def add_obj_traj (readFile : List Char → List TrajRecord) (s : Scene)
    (scene_files : List (List Char)) : Scene :=
  { s with objs_info := s.objs_info.map (fun o =>
      match findTrajFile o.name scene_files with
      | some f => add_traj o (readFile f)
      | none => o) }

/-- The per-scene file selection of `Participant.add_trajectories` (lines
143-145): `[i for (i, v) in zip(part_files, aux_scene_nums == scene.scene_num) if v]`,
i.e. the participant's files whose identity's scene number equals the scene's
number (`zip` truncating to the shorter list). -/
def sceneFilter (part_files : List (List Char)) (part_scene_nums : List (Nat × Nat))
    (k : Nat) : List (List Char) :=
  ((part_files.zip (part_scene_nums.map Prod.snd)).filter (fun fv => fv.2 == k)).map Prod.fst

/-- Python `list.index(x)`: position of the first occurrence, `ValueError` when
absent (`boxed_importer.py` line 150). -/
def pyIndexAux (x : Nat × Nat) : List (Nat × Nat) → Nat → Except PyErr Nat
  | [], _ => .error .valueError
  | y :: ys, i => if y = x then .ok i else pyIndexAux x ys (i + 1)

/-- Python `list.index`. -/
def pyIndex (l : List (Nat × Nat)) (x : Nat × Nat) : Except PyErr Nat :=
  pyIndexAux x l 0

/-- Python list indexing `l[i]` for a non-negative index. -/
def pyGetFile (l : List (List Char)) (i : Nat) : Except PyErr (List Char) :=
  match l[i]? with
  | some v => .ok v
  | none => .error .indexError

/-- The scene loop of `Participant.add_trajectories` (lines 142-150): for each
scene, attach object trajectories from the scene-number-filtered files; when
camera data was passed (`cam_part_files is not None`), look up the camera file
whose identity equals `(part_num, scene_num)` and run `add_cam_traj` on its
parsed content. -/
def addTrajScenes (readFile : List Char → List TrajRecord) (part_num : Nat)
    (part_files : List (List Char)) (part_scene_nums : List (Nat × Nat))
    (cam : Option (List (List Char) × List (Nat × Nat))) :
    List Scene → Except PyErr (List Scene)
  | [] => .ok []
  | sc :: rest =>
    let sc1 := add_obj_traj readFile sc (sceneFilter part_files part_scene_nums sc.scene_num)
    match (match cam with
           | none => .ok sc1
           | some (cam_files, cam_nums) =>
             match pyIndex cam_nums (part_num, sc.scene_num) with
             | .error e => .error e
             | .ok idx =>
               match pyGetFile cam_files idx with
               | .error e => .error e
               | .ok f =>
                 match add_cam_traj sc1.cam_traj (readFile f) with
                 | .error e => .error e
                 | .ok ct => .ok { sc1 with cam_traj := ct } : Except PyErr Scene) with
    | .error e => .error e
    | .ok sc2 =>
      match addTrajScenes readFile part_num part_files part_scene_nums cam rest with
      | .error e => .error e
      | .ok rest2 => .ok (sc2 :: rest2)

/-- `Participant.add_trajectories` (lines 131-150). -/
def add_trajectories (readFile : List Char → List TrajRecord) (p : Participant)
    (part_files : List (List Char)) (part_scene_nums : List (Nat × Nat))
    (cam : Option (List (List Char) × List (Nat × Nat))) : Except PyErr Participant :=
  match addTrajScenes readFile p.part_num part_files part_scene_nums cam p.scenes with
  | .error e => .error e
  | .ok scs => .ok { p with scenes := scs }

/-! ## boxed_importer.py : load_pick_place partitioning -/

/-- Python slice `l[a:b]` for non-negative bounds. -/
def pySlice (l : List α) (a b : Nat) : List α := (l.drop a).take (b - a)

/-- The body of the `for i in range(len(part_scene_nums))` loop of
`BoxED.load_pick_place` (lines 201-213), acting on the state
(`start_idx`, participants created so far).  A created participant is recorded
as its (files slice, identities slice) argument pair.  Identities are the
(participant number, scene number) pairs the crawler produced; indexing
`nums[j]` is modeled by `getD` (every index used lies in range).  Note that
`start_idx` is reassigned *before* the final `if` is evaluated, exactly as in
the source. -/
def lppStep (files : List (List Char)) (nums : List (Nat × Nat))
    (st : Nat × List (List (List Char) × List (Nat × Nat))) (i : Nat) :
    Nat × List (List (List Char) × List (Nat × Nat)) :=
  let start_idx := st.1
  let n := nums.length
  let ps := nums.getD start_idx (0, 0)
  let pi := nums.getD i (0, 0)
  let out1 :=
    if ps.1 ≠ pi.1 then st.2 ++ [(pySlice files start_idx i, pySlice nums start_idx i)]
    else if ps.1 = pi.1 ∧ i = n - 1 then
      st.2 ++ [(pySlice files start_idx (i + 1), pySlice nums start_idx (i + 1))]
    else st.2
  let start_idx1 := if ps.1 ≠ pi.1 then i else start_idx
  let ps1 := nums.getD start_idx1 (0, 0)
  let out2 :=
    if i = n - 1 ∧ ps1.1 ≠ pi.1 then out1 ++ [([files.getD i []], [pi])]
    else out1
  (start_idx1, out2)

/-- `BoxED.load_pick_place` (lines 198-213), reduced to its partitioning logic:
the list of (files, identities) argument pairs passed to `add_participant`, in
creation order. -/
def load_pick_place (files : List (List Char)) (nums : List (Nat × Nat)) :
    List (List (List Char) × List (Nat × Nat)) :=
  ((List.range nums.length).foldl (lppStep files nums) (0, [])).2

/-! ## boxed_importer.py : the BoxED facade and its queries -/

/-- The assembled dataset (`BoxED`, lines 153-196): the list of participants.
The root folder and the camera flag only steer construction and are passed to
the functions that need them. -/
structure Dataset where
  participants : List Participant
deriving DecidableEq, Inhabited

/-- Python `l[-1]`: the last element, `IndexError` on an empty list. -/
def pyLast (l : List α) : Except PyErr α :=
  match l.getLast? with
  | some a => .ok a
  | none => .error .indexError

/-- Python `l[0]`: the first element, `IndexError` on an empty list. -/
def pyHead (l : List α) : Except PyErr α :=
  match l.head? with
  | some a => .ok a
  | none => .error .indexError

/-- The loop body of `BoxED.get_scene_durations` (lines 277-278):
`scene.objs_info[-1].trajectory[-1].time_stamp - scene.objs_info[0].trajectory[0].time_stamp`,
with Python's left-to-right evaluation of the fallible index accesses. -/
def scene_duration (sc : Scene) : Except PyErr Int :=
  match pyLast sc.objs_info with
  | .error e => .error e
  | .ok lastObj =>
    match pyLast lastObj.trajectory with
    | .error e => .error e
    | .ok lastP =>
      match pyHead sc.objs_info with
      | .error e => .error e
      | .ok firstObj =>
        match pyHead firstObj.trajectory with
        | .error e => .error e
        | .ok firstP => .ok (lastP.time_stamp - firstP.time_stamp)

/-- The inner scene loop of `BoxED.get_scene_durations`, appending each scene's
duration to the accumulator. -/
def gsdScenes (acc : List Int) : List Scene → Except PyErr (List Int)
  | [] => .ok acc
  | sc :: rest =>
    match scene_duration sc with
    | .error e => .error e
    | .ok v => gsdScenes (acc ++ [v]) rest

/-- The outer participant loop of `BoxED.get_scene_durations`. -/
def gsdParts (acc : List Int) : List Participant → Except PyErr (List Int)
  | [] => .ok acc
  | p :: rest =>
    match gsdScenes acc p.scenes with
    | .error e => .error e
    | .ok acc2 => gsdParts acc2 rest

/-- `BoxED.get_scene_durations` (lines 272-280). -/
def get_scene_durations (d : Dataset) : Except PyErr (List Int) :=
  gsdParts [] d.participants

/-- `BoxED.ALL_OBJS` (lines 169-173): the fixed catalog of canonical object
names. -/
def ALL_OBJS : List (List Char) :=
  ["002 masterchef can".data, "003 cracker box".data, "004 sugar box".data,
   "005 tomato soup can".data, "006 mustard bottle".data, "007 tuna fish can".data,
   "008 pudding box".data, "010 potted meat can".data, "011 banana".data,
   "012 strawberry".data, "013 apple".data, "014 lemon".data, "015 peach".data,
   "016 pear".data, "017 orange".data, "018 plum".data, "021 bleach cleanser".data,
   "025 mug".data, "057 racquetball".data, "058 golf ball".data,
   "100 half egg carton".data, "101 bread".data, "102 toothbrush".data,
   "103 toothpaste".data]

/-- The `objs` argument of `get_grasp_poses`: a single string or a list of
strings (the only shapes the typed embedding can pass; the Python
`else: exit(1)` branch for other runtime types is unreachable here, and the
`all(isinstance(elem, str) ...)` guard is always satisfied). -/
inductive ObjsArg where
  | strA (s : List Char)
  | listA (l : List (List Char))
deriving DecidableEq

/-- Python dict assignment/append for `grasp_poses` (lines 322-327): set the
key to a one-pose list when absent (insertion at the end, as Python dicts
preserve insertion order), append to its list when present. -/
def dictAppendPose (m : List (List Char × List Pose)) (k : List Char) (v : Pose) :
    List (List Char × List Pose) :=
  match m with
  | [] => [(k, [v])]
  | (k', vs) :: rest =>
    if k' = k then (k', vs ++ [v]) :: rest else (k', vs) :: dictAppendPose rest k v

/-- The Participant/Scene/packing-order scan of `get_grasp_poses`
(lines 318-327). -/
def graspScan (d : Dataset) (grasp_type : List Char) (targets : List (List Char)) :
    List (List Char × List Pose) :=
  d.participants.foldl (fun m p =>
    p.scenes.foldl (fun m2 sc =>
      sc.objs_info.foldl (fun m3 o =>
        if o.name ∈ targets then
          dictAppendPose m3 o.name
            (if grasp_type = "pick".data then o.pick_pose else o.place_pose)
        else m3) m2) m) []

/-- `BoxED.get_grasp_poses` (lines 282-329): an invalid `grasp_type` or an
unknown object name logs an error and calls `exit(1)` — process termination,
not an exception. -/
def get_grasp_poses (d : Dataset) (grasp_type : List Char) (objs : ObjsArg) :
    PyResult (List (List Char × List Pose)) :=
  if grasp_type = "pick".data ∨ grasp_type = "place".data then
    match objs with
    | .strA s =>
      if s = "all".data then .ok (graspScan d grasp_type ALL_OBJS)
      else if s ∈ ALL_OBJS then .ok (graspScan d grasp_type [s])
      else .exitP 1
    | .listA l =>
      if ∀ x ∈ l, x ∈ ALL_OBJS then .ok (graspScan d grasp_type l)
      else .exitP 1
  else .exitP 1

/-! ## Spec-side definitions

These definitions follow the wording of the specification (as amended where a
claim required correction); the theorems below relate them to the embedded
code. -/

/-- Spec-side form of the per-scene candidate pool: the participant's
object-trajectory files whose identity carries the scene's number. -/
def sceneCandidates (part_files : List (List Char)) (part_scene_nums : List (Nat × Nat))
    (k : Nat) : List (List Char) :=
  ((part_files.zip part_scene_nums).filter (fun fn => fn.2.2 = k)).map Prod.fst

/-- Spec-side form of per-scene trajectory attachment (the amended C2): each
object receives the parse of the first file, in remaining-file order, among
the scene-number-filtered candidates whose path contains the object's
canonical name; objects with no match are unchanged; the pool is the same for
every object of the scene. -/
def attachSpec (readFile : List Char → List TrajRecord) (files : List (List Char))
    (nums : List (Nat × Nat)) (sc : Scene) : Scene :=
  { sc with objs_info := sc.objs_info.map (fun o =>
      match (sceneCandidates files nums sc.scene_num).find? (fun f => listHasSub o.name f) with
      | some f =>
        { o with
          trajectory := o.trajectory ++ (readFile f).map (fun r => ⟨r.recRot, r.recTrans, r.recTime⟩) }
      | none => o) }

/-- A `get_grasp_poses` query the spec's taxonomy classifies as invalid: a
grasp kind other than `pick`/`place`, or an object argument naming an unknown
object (a single name that is neither `"all"` nor cataloged, or a list with a
non-cataloged member). -/
def invalidQuery (gt : List Char) (objs : ObjsArg) : Prop :=
  ¬(gt = "pick".data ∨ gt = "place".data) ∨
    (match objs with
     | .strA s => s ≠ "all".data ∧ s ∉ ALL_OBJS
     | .listA l => ¬∀ x ∈ l, x ∈ ALL_OBJS)

instance (gt : List Char) (objs : ObjsArg) : Decidable (invalidQuery gt objs) := by
  unfold invalidQuery
  cases objs <;> exact inferInstance

/-- Both duration endpoints of a scene are usable: the last object in packing
order and the first object in packing order each have a non-empty trajectory. -/
def endpointsLoaded (sc : Scene) : Prop :=
  (sc.objs_info.getLastD default).trajectory ≠ [] ∧
    (sc.objs_info.headD default).trajectory ≠ []

instance (sc : Scene) : Decidable (endpointsLoaded sc) := by
  unfold endpointsLoaded
  exact inferInstance

/-- Spec-side duration of one scene: last trajectory timestamp of the last
object in packing order minus first trajectory timestamp of the first object. -/
def sceneDurSpec (sc : Scene) : Int :=
  ((sc.objs_info.getLastD default).trajectory.getLastD default).time_stamp -
    ((sc.objs_info.headD default).trajectory.headD default).time_stamp

/-- Spec-side durations of all scenes, in Participant/Scene order. -/
def durationsSpec (d : Dataset) : List Int :=
  (d.participants.map (fun p => p.scenes.map sceneDurSpec)).flatten

/-! ## Concrete fixtures used by counterexamples and witnesses -/

/-- File-content oracle: `box_a` parses to a one-record trajectory with
timestamp 1, anything else to one with timestamp 2. -/
def readFix (f : List Char) : List TrajRecord :=
  if f = "box_a".data then [⟨[[1]], [1], 1⟩] else [⟨[[2]], [2], 2⟩]

/-- An object whose canonical name is `box`, with no trajectory yet. -/
def objBox : ObjWithTraj := ⟨"box".data, 1234, ⟨[], []⟩, ⟨[], []⟩, []⟩

/-- Participant 1 with a single scene numbered 2 containing `objBox`. -/
def partFix : Participant := ⟨1, [⟨2, [objBox], []⟩]⟩

/-- A dataset with one participant and one scene holding two objects in
packing order, with trajectories spanning timestamps [100, 500] and [50, 900]. -/
def dFix : Dataset :=
  ⟨[⟨1, [⟨1,
      [⟨"011 banana".data, 1, ⟨[], []⟩, ⟨[], []⟩, [⟨[], [], 100⟩, ⟨[], [], 500⟩]⟩,
       ⟨"013 apple".data, 2, ⟨[], []⟩, ⟨[], []⟩, [⟨[], [], 50⟩, ⟨[], [], 900⟩]⟩],
      []⟩]⟩]⟩

/-! ## Lemmas about name normalization -/

lemma get_clean_name_eq_normalizeAmended (name : List Char) :
    get_clean_name name = normalizeAmended name := by
  unfold get_clean_name normalizeAmended delete_idx strFind
  cases h1 : firstIdx name '(' <;> cases h2 : firstIdx name '-'
  · simp
  · rename_i b
    simp only []
    rw [if_pos (Or.inr (by omega))]
    have hmin : min (-1 : Int) (b : Int) = -1 := by omega
    rw [hmin, if_neg (by omega), max_comm]
    have : (max (b : Int) (-1)).toNat = b := by omega
    rw [this]
  · rename_i a
    simp only []
    rw [if_pos (Or.inl (by omega))]
    have hmin : min (a : Int) (-1 : Int) = -1 := by omega
    rw [hmin, if_neg (by omega)]
    have : (max (a : Int) (-1)).toNat = a := by omega
    rw [this]
  · rename_i a b
    simp only []
    rw [if_pos (Or.inl (by omega))]
    by_cases h : min (a : Int) (b : Int) > 0
    · rw [if_pos h]
      have h0 : ¬(min a b = 0) := by omega
      rw [if_neg h0]
      have : (min (a : Int) (b : Int)).toNat = min a b := by omega
      rw [this]
    · rw [if_neg h]
      have h0 : min a b = 0 := by omega
      rw [if_pos h0]
      have : (max (a : Int) (b : Int)).toNat = max a b := by omega
      rw [this]

/-- C4 — corrected.  The claim's exception rule ("when the smaller index is 0,
truncate at the larger index instead, so a leading delimiter never produces an
empty string") fails when the only delimiter present sits at index 0: for
`"(abc"` the first `'('` is at 0 and `'-'` is absent (index `-1` in the code,
`+infinity` per the claim), and the code computes `max(0, -1) = 0` and returns
the empty string — not the unchanged string the claim's rule predicts. -/
theorem get_clean_name_leading_delim_empty :
    get_clean_name "(abc".data = [] ∧ get_clean_name "(abc".data ≠ "(abc".data := by
  decide

/-- C4 — amended claim: for every raw name, `get_clean_name` truncates at the
smaller of the two first-occurrence indices when both delimiters occur and
that smaller index is positive; at the larger index when both occur and the
smaller is 0; at the sole index when exactly one occurs (yielding the empty
string when that sole index is 0); and leaves the name unchanged when neither
occurs.  In particular `get_clean_name "010 box(clone)-29932" = "010 box"`. -/
theorem get_clean_name_spec :
    (∀ name : List Char, get_clean_name name = normalizeAmended name) ∧
      get_clean_name "010 box(clone)-29932".data = "010 box".data := by
  exact ⟨get_clean_name_eq_normalizeAmended, by decide⟩

/-- C10 — confirmed: normalization only truncates: the result is a prefix of
the input (some suffix extends it back to the input), so its length is at most
the input's length. -/
theorem get_clean_name_truncates :
    ∀ name : List Char,
      (∃ t, get_clean_name name ++ t = name) ∧
        (get_clean_name name).length ≤ name.length := by
  intro name
  constructor
  · exact ⟨name.drop (delete_idx name).toNat, List.take_append_drop _ _⟩
  · rw [get_clean_name, List.length_take]
    exact min_le_right _ _

/-! ## Record assembly: participant partitioning (C1) -/

/-- C1 — code bug.  On the identity-sorted input `[(1,1), (2,1)]` (two
participants, the second represented by a single trailing file),
`load_pick_place` creates only participant 1: creating the trailing
single-file participant is the job of the loop's final
`if i == len(...) - 1 and part_scene_nums[start_idx][0] != part_scene_nums[i][0]`
(`boxed_importer.py` lines 211-213, commented "Special case where the next
file is the last file and belongs to a different participant"), but
`start_idx` has already been reassigned to `i` by the first branch, so that
condition is never true and the branch is dead; the trailing run is silently
dropped, contradicting both the claim and the code's own comment. -/
theorem load_pick_place_drops_trailing_run :
    load_pick_place ["f1".data, "f2".data] [(1, 1), (2, 1)] =
      [(["f1".data], [(1, 1)])] := by
  decide

/-! ## Trajectory attachment (C2, C3) -/

lemma findTrajFile_eq_find? (name : List Char) :
    ∀ files : List (List Char),
      findTrajFile name files = files.find? (fun f => listHasSub name f)
  | [] => rfl
  | f :: fs => by
    rw [findTrajFile, List.find?]
    by_cases h : listHasSub name f
    · simp [h]
    · simp [h, findTrajFile_eq_find? name fs]

lemma sceneFilter_eq_sceneCandidates (k : Nat) :
    ∀ (files : List (List Char)) (nums : List (Nat × Nat)),
      sceneFilter files nums k = sceneCandidates files nums k
  | [], ms => by cases ms <;> rfl
  | _ :: _, [] => rfl
  | f :: fs, m :: ms => by
    have ih := sceneFilter_eq_sceneCandidates k fs ms
    rw [sceneFilter, sceneCandidates] at ih ⊢
    simp only [List.map_cons, List.zip_cons_cons, List.filter_cons]
    by_cases h : m.2 = k <;> simp [h, ih]

lemma addTrajScenes_none (readFile : List Char → List TrajRecord) (pn : Nat)
    (files : List (List Char)) (nums : List (Nat × Nat)) :
    ∀ scs : List Scene,
      addTrajScenes readFile pn files nums none scs =
        .ok (scs.map (fun sc => add_obj_traj readFile sc (sceneFilter files nums sc.scene_num)))
  | [] => rfl
  | sc :: rest => by
    rw [addTrajScenes, addTrajScenes_none readFile pn files nums rest]
    rfl

/-- C2 — amended claim: for every participant, the trajectory attached to each
object of each scene is parsed from the first file — in remaining-file order —
among the participant's object-trajectory files *whose identity carries the
scene's own scene number*, such that the file's path contains the object's
canonical name as a substring; an object with no such file keeps its
trajectory, and a matched file is not removed from the candidate pool (every
object of the scene searches the same pool, so two objects whose names are
substrings of each other can receive the same file). -/
theorem add_trajectories_first_match_in_scene_pool
    (readFile : List Char → List TrajRecord) (p : Participant)
    (files : List (List Char)) (nums : List (Nat × Nat)) :
    add_trajectories readFile p files nums none =
      .ok { p with scenes := p.scenes.map (attachSpec readFile files nums) } := by
  have hfun : (fun sc => add_obj_traj readFile sc (sceneFilter files nums sc.scene_num)) =
      attachSpec readFile files nums := by
    funext sc
    have hobj : (fun o : ObjWithTraj =>
          match findTrajFile o.name (sceneCandidates files nums sc.scene_num) with
          | some f => add_traj o (readFile f)
          | none => o) =
        (fun o : ObjWithTraj =>
          match (sceneCandidates files nums sc.scene_num).find? (fun f => listHasSub o.name f) with
          | some f => { o with trajectory := o.trajectory ++ (readFile f).map (fun r => ⟨r.recRot, r.recTrans, r.recTime⟩) }
          | none => o) := by
      funext o
      rw [findTrajFile_eq_find?]
      rfl
    rw [attachSpec, add_obj_traj, sceneFilter_eq_sceneCandidates, hobj]
  rw [add_trajectories, addTrajScenes_none, hfun]

/-- C2 — counterexample to the claim as stated.  Participant 1 has one scene
with number 2 holding object `box`; the participant's object-trajectory files
are `box_a` (identity (1,1)) and `box_b` (identity (1,2)).  The first file in
remaining-file order among *all* the participant's files whose name contains
`box` is `box_a` (third conjunct), whose parse is the timestamp-1 record
(fourth conjunct) — but the code attaches the parse of `box_b` (the
timestamp-2 record, first conjunct), because line 145 of `boxed_importer.py`
first filters the pool by the file's own scene number.  The file's scene
identity is therefore not irrelevant, contrary to the claim. -/
theorem add_trajectories_not_whole_participant_pool :
    add_trajectories readFix partFix ["box_a".data, "box_b".data] [(1, 1), (1, 2)] none =
        .ok ⟨1, [⟨2, [⟨"box".data, 1234, ⟨[], []⟩, ⟨[], []⟩, [⟨[[2]], [2], 2⟩]⟩], []⟩]⟩ ∧
      add_trajectories readFix partFix ["box_a".data, "box_b".data] [(1, 1), (1, 2)] none ≠
        .ok ⟨1, [⟨2, [⟨"box".data, 1234, ⟨[], []⟩, ⟨[], []⟩, [⟨[[1]], [1], 1⟩]⟩], []⟩]⟩ ∧
      findTrajFile "box".data ["box_a".data, "box_b".data] = some "box_a".data ∧
      readFix "box_a".data = [⟨[[1]], [1], 1⟩] := by
  decide

/-- C3 — code bug.  With camera loading requested, the camera file whose
identity equals (participant number, scene number) is located (here `cam1`
at identity (1,1)) and its parsed records are handed to
`Scene.add_cam_traj` — which reads `rec.rotation` by *attribute access* on the
dicts produced by `json.load` (`boxed_importer.py` line 104; contrast
`pose_time['rotation']` in `add_traj`, line 59), so it raises
`AttributeError` on the very first record of any non-empty camera file
instead of parsing it like an object trajectory, as the claim (and the
evident intent) say. -/
theorem add_cam_traj_attribute_access_raises :
    add_trajectories readFix ⟨1, [⟨1, [], []⟩]⟩ [] [] (some (["cam1".data], [(1, 1)])) =
        .error .attributeError ∧
      add_cam_traj [] [⟨[[1]], [0], 0⟩] = .error .attributeError := by
  decide

/-! ## Query errors (C7) -/

/-- C7 — amended claim: an invalid `grasp_type` or an unknown object name
makes `get_grasp_poses` log an error and terminate the whole process via
`exit(1)`; no `InvalidObjectNameError` is reported to the caller and no
subsequent query can run. -/
theorem get_grasp_poses_exits (d : Dataset) (gt : List Char) (objs : ObjsArg)
    (h : invalidQuery gt objs) : get_grasp_poses d gt objs = .exitP 1 := by
  unfold get_grasp_poses
  rcases h with h | h
  · rw [if_neg h]
  · by_cases hgt : gt = "pick".data ∨ gt = "place".data
    · rw [if_pos hgt]
      cases objs with
      | strA s =>
        simp only [invalidQuery] at h
        show (if s = "all".data then PyResult.ok (graspScan d gt ALL_OBJS)
          else if s ∈ ALL_OBJS then PyResult.ok (graspScan d gt [s])
          else PyResult.exitP 1) = PyResult.exitP 1
        rw [if_neg h.1, if_neg h.2]
      | listA l =>
        simp only [invalidQuery] at h
        show (if ∀ x ∈ l, x ∈ ALL_OBJS then PyResult.ok (graspScan d gt l)
          else PyResult.exitP 1) = PyResult.exitP 1
        rw [if_neg h]
    · rw [if_neg hgt]

/-- Witness for C7's amended theorem: `grasp_type = "grab"` with the valid
object name `011 banana` is an invalid query, and on the empty dataset the
call terminates the process with exit code 1. -/
theorem get_grasp_poses_exits_witness :
    invalidQuery "grab".data (.strA "011 banana".data) ∧
      get_grasp_poses ⟨[]⟩ "grab".data (.strA "011 banana".data) = .exitP 1 :=
  ⟨by decide, get_grasp_poses_exits ⟨[]⟩ "grab".data (.strA "011 banana".data) (by decide)⟩

/-- C7 — counterexample to the claim as stated.  An invalid grasp kind makes
the call return `exitP 1` — the embedding's process-termination outcome
(`boxed_importer.py` line 294 calls `exit(1)`) — which is not an
`InvalidObjectNameError` reported to the caller; the program, and with it
every subsequent query, is over. -/
theorem get_grasp_poses_terminates_process :
    get_grasp_poses ⟨[]⟩ "grab".data (.listA ["011 banana".data]) = .exitP 1 ∧
      (PyResult.exitP 1 : PyResult (List (List Char × List Pose))) ≠
        .raiseE .invalidObjectName := by
  decide

/-! ## Scene durations (C8) -/

lemma pyLast_eq_getLastD {α : Type} (l : List α) (a : α) (h : l ≠ []) :
    pyLast l = .ok (l.getLastD a) := by
  cases hl : l.getLast? with
  | none => exact absurd (List.getLast?_eq_none_iff.mp hl) h
  | some x => simp [pyLast, hl, List.getLastD_eq_getLast?]

lemma pyHead_eq_headD {α : Type} (l : List α) (a : α) (h : l ≠ []) :
    pyHead l = .ok (l.headD a) := by
  cases hl : l.head? with
  | none => exact absurd (List.head?_eq_none_iff.mp hl) h
  | some x => simp [pyHead, hl, List.headD_eq_head?]

lemma scene_duration_ok (sc : Scene) (h0 : sc.objs_info ≠ []) (h : endpointsLoaded sc) :
    scene_duration sc = .ok (sceneDurSpec sc) := by
  simp only [scene_duration, pyLast_eq_getLastD sc.objs_info default h0,
    pyHead_eq_headD sc.objs_info default h0,
    pyLast_eq_getLastD (sc.objs_info.getLastD default).trajectory default h.1,
    pyHead_eq_headD (sc.objs_info.headD default).trajectory default h.2]
  rfl

lemma scene_duration_err (sc : Scene) (h0 : sc.objs_info ≠ []) (h : ¬endpointsLoaded sc) :
    scene_duration sc = .error .indexError := by
  by_cases hL : (sc.objs_info.getLastD default).trajectory = []
  · have hfail : pyLast (sc.objs_info.getLastD default).trajectory = .error .indexError := by
      rw [hL]; rfl
    simp only [scene_duration, pyLast_eq_getLastD sc.objs_info default h0, hfail]
  · have hH : (sc.objs_info.headD default).trajectory = [] := by
      rcases not_and_or.mp h with h' | h'
      · exact absurd hL h'
      · exact not_not.mp h'
    have hfail : pyHead (sc.objs_info.headD default).trajectory = .error .indexError := by
      rw [hH]; rfl
    simp only [scene_duration, pyLast_eq_getLastD sc.objs_info default h0,
      pyLast_eq_getLastD (sc.objs_info.getLastD default).trajectory default hL,
      pyHead_eq_headD sc.objs_info default h0, hfail]

lemma gsdScenes_ok : ∀ (scs : List Scene) (acc : List Int),
    (∀ sc ∈ scs, sc.objs_info ≠ []) → (∀ sc ∈ scs, endpointsLoaded sc) →
    gsdScenes acc scs = .ok (acc ++ scs.map sceneDurSpec)
  | [], acc, _, _ => by simp [gsdScenes]
  | sc :: rest, acc, h0, h => by
    simp only [gsdScenes, scene_duration_ok sc (h0 sc (by simp)) (h sc (by simp)),
      gsdScenes_ok rest (acc ++ [sceneDurSpec sc]) (fun s hs => h0 s (by simp [hs]))
        (fun s hs => h s (by simp [hs]))]
    simp

lemma gsdScenes_err : ∀ (scs : List Scene) (acc : List Int),
    (∀ sc ∈ scs, sc.objs_info ≠ []) → (∃ sc ∈ scs, ¬endpointsLoaded sc) →
    gsdScenes acc scs = .error .indexError
  | [], _, _, hex => by simp at hex
  | sc :: rest, acc, h0, hex => by
    by_cases hsc : endpointsLoaded sc
    · obtain ⟨s, hs, hbad⟩ := hex
      rcases List.mem_cons.mp hs with rfl | hs'
      · exact absurd hsc hbad
      · simp only [gsdScenes, scene_duration_ok sc (h0 sc (by simp)) hsc,
          gsdScenes_err rest (acc ++ [sceneDurSpec sc]) (fun x hx => h0 x (by simp [hx]))
            ⟨s, hs', hbad⟩]
    · simp only [gsdScenes, scene_duration_err sc (h0 sc (by simp)) hsc]

lemma gsdParts_ok : ∀ (ps : List Participant) (acc : List Int),
    (∀ p ∈ ps, ∀ sc ∈ p.scenes, sc.objs_info ≠ []) →
    (∀ p ∈ ps, ∀ sc ∈ p.scenes, endpointsLoaded sc) →
    gsdParts acc ps = .ok (acc ++ (ps.map (fun p => p.scenes.map sceneDurSpec)).flatten)
  | [], acc, _, _ => by simp [gsdParts]
  | p :: rest, acc, h0, h => by
    simp only [gsdParts, gsdScenes_ok p.scenes acc (h0 p (by simp)) (h p (by simp)),
      gsdParts_ok rest (acc ++ p.scenes.map sceneDurSpec) (fun x hx => h0 x (by simp [hx]))
        (fun x hx => h x (by simp [hx]))]
    simp

lemma gsdParts_err : ∀ (ps : List Participant) (acc : List Int),
    (∀ p ∈ ps, ∀ sc ∈ p.scenes, sc.objs_info ≠ []) →
    (∃ p ∈ ps, ∃ sc ∈ p.scenes, ¬endpointsLoaded sc) →
    gsdParts acc ps = .error .indexError
  | [], _, _, hex => by simp at hex
  | p :: rest, acc, h0, hex => by
    by_cases hp : ∀ sc ∈ p.scenes, endpointsLoaded sc
    · obtain ⟨q, hq, s, hs, hbad⟩ := hex
      rcases List.mem_cons.mp hq with rfl | hq'
      · exact absurd (hp s hs) hbad
      · simp only [gsdParts, gsdScenes_ok p.scenes acc (h0 p (by simp)) hp,
          gsdParts_err rest (acc ++ p.scenes.map sceneDurSpec)
            (fun x hx => h0 x (by simp [hx])) ⟨q, hq', s, hs, hbad⟩]
    · have hex' : ∃ sc ∈ p.scenes, ¬endpointsLoaded sc := by
        push_neg at hp
        exact hp
      simp only [gsdParts, gsdScenes_err p.scenes acc (h0 p (by simp)) hex']

/-- C8 — confirmed (for datasets whose scenes each contain at least one
object, the situation the claim's endpoints presuppose): when every scene's
endpoint objects have non-empty trajectories, `get_scene_durations` returns,
in Participant/Scene order, the last trajectory timestamp of the last object
in packing order minus the first trajectory timestamp of the first object;
when some scene has an empty endpoint trajectory, the call fails (the code
raises `IndexError` from the `[-1]`/`[0]` accesses — the failure the spec's
taxonomy names `EmptyTrajectoryError`). -/
theorem get_scene_durations_spec (d : Dataset)
    (h0 : ∀ p ∈ d.participants, ∀ sc ∈ p.scenes, sc.objs_info ≠ []) :
    ((∀ p ∈ d.participants, ∀ sc ∈ p.scenes, endpointsLoaded sc) →
        get_scene_durations d = .ok (durationsSpec d)) ∧
      ((∃ p ∈ d.participants, ∃ sc ∈ p.scenes, ¬endpointsLoaded sc) →
        ∃ e, get_scene_durations d = .error e) := by
  constructor
  · intro h
    rw [get_scene_durations, gsdParts_ok d.participants [] h0 h]
    rfl
  · intro hex
    exact ⟨.indexError, by rw [get_scene_durations, gsdParts_err d.participants [] h0 hex]⟩

/-- Witness for C8: on a dataset with one scene whose two objects have
trajectories spanning [100, 500] and [50, 900], the scene duration is
`900 - 100 = 800`. -/
theorem get_scene_durations_spec_witness :
    get_scene_durations dFix = .ok [800] := by
  have h := (get_scene_durations_spec dFix (by decide)).1 (by decide)
  rw [h]
  decide

/-! ## The path indexer (C5, C6, C9) -/

lemma pyTupLe_fst {a b : List Nat × List Char} (h : pyTupLe a b) : a.1 ≤ b.1 := by
  rcases h with h | ⟨h, -⟩
  · exact le_of_lt h
  · exact le_of_eq h

lemma zipFstSnd (l : List (List Nat × List Char)) :
    (l.map Prod.fst).zip (l.map Prod.snd) = l := by
  rw [List.zip_map']
  simp

/-- The two sorting passes of `file_crawler` recombine: sorting the original
identity list zipped with the already-sorted path list, and projecting to
identities, yields exactly the identity projection of the sorted pair list.
This holds because both projections are `≤`-sorted rearrangements of the same
multiset of identity tuples, and sorted lists that are permutations of each
other coincide. -/
lemma sort_pair_fst (l : List (List Nat × List Char)) :
    (pySorted ((l.map Prod.fst).zip ((pySorted l).map Prod.snd))).map Prod.fst =
      (pySorted l).map Prod.fst := by
  have perm1 : (pySorted l).Perm l := List.perm_insertionSort _ _
  have lenp2 : ((pySorted l).map Prod.snd).length = (l.map Prod.fst).length := by
    rw [List.length_map, List.length_map, perm1.length_eq]
  have mfz2 : ((l.map Prod.fst).zip ((pySorted l).map Prod.snd)).map Prod.fst = l.map Prod.fst :=
    List.map_fst_zip _ _ (le_of_eq lenp2.symm)
  have perm2 : (pySorted ((l.map Prod.fst).zip ((pySorted l).map Prod.snd))).Perm
      ((l.map Prod.fst).zip ((pySorted l).map Prod.snd)) := List.perm_insertionSort _ _
  have p1 := perm2.map Prod.fst
  rw [mfz2] at p1
  have p2 := perm1.map Prod.fst
  have permA := p1.trans p2.symm
  have so1 : List.Sorted pyTupLe (pySorted l) := List.sorted_insertionSort _ _
  have so2 : List.Sorted pyTupLe
      (pySorted ((l.map Prod.fst).zip ((pySorted l).map Prod.snd))) :=
    List.sorted_insertionSort _ _
  have sf1 : List.Sorted (fun x y : List Nat => x ≤ y) ((pySorted l).map Prod.fst) :=
    List.pairwise_map.mpr (so1.imp pyTupLe_fst)
  have sf2 : List.Sorted (fun x y : List Nat => x ≤ y)
      ((pySorted ((l.map Prod.fst).zip ((pySorted l).map Prod.snd))).map Prod.fst) :=
    List.pairwise_map.mpr (so2.imp pyTupLe_fst)
  exact List.eq_of_perm_of_sorted permA sf2 sf1

lemma crawlGather_false (target : List Char) :
    ∀ entries : List (List Char × List Char),
      crawlGather false target entries =
        .ok ((discoveredPairs entries target).map Prod.snd,
             (discoveredPairs entries target).map Prod.fst)
  | [] => rfl
  | (d, n) :: rest => by
    have ih := crawlGather_false target rest
    by_cases h : listHasSub target n <;>
      simp [crawlGather, h, ih, consPair, discoveredPairs, List.filter_cons]

lemma crawlGather_shape (uniq : Bool) (target : List Char) :
    ∀ (entries : List (List Char × List Char)) (ps : List (List Char))
      (ns : List (List Nat)),
      crawlGather uniq target entries = .ok (ps, ns) →
      ns.length = ps.length ∧
        ∀ pr ∈ ns.zip ps, ∃ d n, (d, n) ∈ entries ∧ pr = (digitRuns d, pyJoin d n)
  | [], ps, ns, h => by
    simp only [crawlGather, Except.ok.injEq, Prod.mk.injEq] at h
    obtain ⟨rfl, rfl⟩ := h
    simp
  | (d, n) :: rest, ps, ns, h => by
    have lift : ns.length = ps.length ∧
        (∀ pr ∈ ns.zip ps, ∃ d' n', (d', n') ∈ rest ∧ pr = (digitRuns d', pyJoin d' n')) →
        ns.length = ps.length ∧
        ∀ pr ∈ ns.zip ps, ∃ d' n', (d', n') ∈ (d, n) :: rest ∧ pr = (digitRuns d', pyJoin d' n') :=
      fun ⟨hl, hm⟩ => ⟨hl, fun pr hpr =>
        let ⟨d', n', hd, he⟩ := hm pr hpr
        ⟨d', n', List.mem_cons_of_mem _ hd, he⟩⟩
    have liftCons : ∀ (ps0 : List (List Char)) (ns0 : List (List Nat)),
        crawlGather uniq target rest = .ok (ps0, ns0) →
        ps = pyJoin d n :: ps0 → ns = digitRuns d :: ns0 →
        ns.length = ps.length ∧
        ∀ pr ∈ ns.zip ps, ∃ d' n', (d', n') ∈ (d, n) :: rest ∧ pr = (digitRuns d', pyJoin d' n') := by
      intro ps0 ns0 hrec hps hns
      obtain ⟨ihlen, ihmem⟩ := crawlGather_shape uniq target rest ps0 ns0 hrec
      subst hps hns
      refine ⟨by simp [ihlen], ?_⟩
      intro pr hpr
      rw [List.zip_cons_cons] at hpr
      rcases List.mem_cons.mp hpr with rfl | hpr'
      · exact ⟨d, n, List.mem_cons_self _ _, rfl⟩
      · obtain ⟨d', n', hd, he⟩ := ihmem pr hpr'
        exact ⟨d', n', List.mem_cons_of_mem _ hd, he⟩
    rw [crawlGather] at h
    by_cases hm : listHasSub target n
    · rw [if_pos hm] at h
      cases uniq with
      | false =>
        simp only [Bool.false_eq_true, if_false] at h
        cases hrec : crawlGather false target rest with
        | error e => rw [hrec] at h; simp [consPair] at h
        | ok pr0 =>
          obtain ⟨ps0, ns0⟩ := pr0
          rw [hrec] at h
          simp only [consPair, Except.ok.injEq, Prod.mk.injEq] at h
          exact liftCons ps0 ns0 hrec h.1.symm h.2.symm
      | true =>
        simp only [if_true] at h
        cases hg1 : pyGetNat (digitRuns d) 1 with
        | error e => simp [hg1] at h
        | ok s =>
          simp only [hg1] at h
          by_cases hs : s ≠ 1
          · rw [if_pos hs] at h
            exact lift (crawlGather_shape true target rest ps ns h)
          · rw [if_neg hs] at h
            cases hg0 : pyGetNat (digitRuns d) 0 with
            | error e => simp [hg0] at h
            | ok pnum =>
              simp only [hg0] at h
              by_cases hp : pnum < 26
              · rw [if_pos hp] at h
                exact lift (crawlGather_shape true target rest ps ns h)
              · rw [if_neg hp] at h
                cases hrec : crawlGather true target rest with
                | error e => rw [hrec] at h; simp [consPair] at h
                | ok pr0 =>
                  obtain ⟨ps0, ns0⟩ := pr0
                  rw [hrec] at h
                  simp only [consPair, Except.ok.injEq, Prod.mk.injEq] at h
                  exact liftCons ps0 ns0 hrec h.1.symm h.2.symm
    · rw [if_neg hm] at h
      exact lift (crawlGather_shape uniq target rest ps ns h)

/-- With `uniq_seqs` left at its default, `file_crawler` returns exactly the
matched discovery pairs sorted by (identity tuple, joined path). -/
lemma file_crawler_false_eq (entries : List (List Char × List Char)) (target : List Char) :
    file_crawler entries target false =
      .ok ((pySorted (discoveredPairs entries target)).map Prod.snd,
           (pySorted (discoveredPairs entries target)).map Prod.fst) := by
  simp only [file_crawler, crawlGather_false target entries]
  rw [zipFstSnd (discoveredPairs entries target), sort_pair_fst (discoveredPairs entries target)]

/-- C5 — counterexample to the claim as stated.  Two files in the same
directory `p1/s1` (hence with equal identity `[1, 1]`) are discovered with
`zfile` first and `afile` second; the claim's tie-break rule ("entries with
equal Identity appear in their original discovery order") demands the output
order `[z, a]`, but the code returns `[a, z]`: `sorted(zip(nums, paths))`
compares the joined path strings when the identity tuples tie. -/
theorem file_crawler_tie_broken_by_path :
    file_crawler [("p1/s1".data, "zfile".data), ("p1/s1".data, "afile".data)]
        "file".data false =
      .ok (["p1/s1/afile".data, "p1/s1/zfile".data], [[1, 1], [1, 1]]) ∧
    (["p1/s1/afile".data, "p1/s1/zfile".data] : List (List Char)) ≠
      ["p1/s1/zfile".data, "p1/s1/afile".data] := by
  decide

/-- C5 — amended claim: the result is sorted ascending by identity tuple
(participant number first, then scene number, then any further digit runs),
with entries of equal identity ordered by their joined path strings ascending
(Python's tuple comparison falls through to the path when identities tie) —
not by discovery order; and the result pairs are a permutation of the matched
discovery pairs.  Being a sorted permutation under an antisymmetric total
order, the output is uniquely determined, so no other ordering (such as
filesystem enumeration order) leaks through. -/
theorem file_crawler_sorted_by_identity_then_path
    (entries : List (List Char × List Char)) (target : List Char)
    (ps : List (List Char)) (ns : List (List Nat))
    (h : file_crawler entries target false = .ok (ps, ns)) :
    List.Sorted pyTupLe (ns.zip ps) ∧ (ns.zip ps).Perm (discoveredPairs entries target) := by
  rw [file_crawler_false_eq] at h
  simp only [Except.ok.injEq, Prod.mk.injEq] at h
  obtain ⟨h1, h2⟩ := h
  subst h1
  subst h2
  rw [zipFstSnd]
  exact ⟨List.sorted_insertionSort _ _, List.perm_insertionSort _ _⟩

/-- Witness for C5's amended theorem at a concrete input: two files with the
identity `[3, 4]` come out sorted with `PP_col` before `PP_data`, a sorted
permutation of the two discovered pairs. -/
theorem file_crawler_sorted_witness :
    List.Sorted pyTupLe (([[3, 4], [3, 4]] : List (List Nat)).zip
        ["q3/r4/PP_col".data, "q3/r4/PP_data".data]) ∧
      (([[3, 4], [3, 4]] : List (List Nat)).zip
        ["q3/r4/PP_col".data, "q3/r4/PP_data".data]).Perm
        (discoveredPairs [("q3/r4".data, "PP_data".data), ("q3/r4".data, "PP_col".data)]
          "PP".data) :=
  file_crawler_sorted_by_identity_then_path
    [("q3/r4".data, "PP_data".data), ("q3/r4".data, "PP_col".data)] "PP".data
    ["q3/r4/PP_col".data, "q3/r4/PP_data".data] [[3, 4], [3, 4]] (by decide)

/-- C6 — counterexample to the claim as stated.  A matched file whose
directory path `pdir7` contains a single digit run does not make indexing
fail: `file_crawler` (with the default `uniq_seqs=False`, as both call sites
use it) returns normally, and the entry carries the incomplete
single-component identity `[7]` — there is no digit-run-count validation
anywhere in the code. -/
theorem file_crawler_short_identity_no_failure :
    file_crawler [("pdir7".data, "a_PickPlace_dataset".data)]
        "PickPlace_dataset".data false =
      .ok (["pdir7/a_PickPlace_dataset".data], [[7]]) ∧
    ([7] : List Nat).length < 2 := by
  decide

/-- C6 — amended claim: indexing performs no validation of the number of digit
runs and (with the default `uniq_seqs=False`) never fails: a matched file with
fewer than two digit runs in its directory path yields an entry whose identity
tuple simply has fewer than two components, deferring any failure to later
consumers of the identity. -/
theorem file_crawler_false_total (entries : List (List Char × List Char))
    (target : List Char) :
    ∃ ps ns, file_crawler entries target false = .ok (ps, ns) :=
  ⟨_, _, file_crawler_false_eq entries target⟩

/-- C9 — confirmed: whenever `file_crawler` returns, its two lists have equal
length, and the identity at each position is exactly the digit-run tuple of
the directory path of the file at the same position (every position comes from
some matched walk entry `(d, n)` with path `d/n` and identity `digitRuns d`).
The second sorting pass — which zips the *original* identity list with the
*already sorted* path list — therefore preserves the path-to-identity
pairing: both projections are sorted by the same identity keys, and equal
multisets sorted by an antisymmetric order coincide. -/
theorem file_crawler_pairing (uniq : Bool) (entries : List (List Char × List Char))
    (target : List Char) (ps : List (List Char)) (ns : List (List Nat))
    (h : file_crawler entries target uniq = .ok (ps, ns)) :
    ns.length = ps.length ∧
      ∀ i (h1 : i < ns.length) (h2 : i < ps.length),
        ∃ d n, (d, n) ∈ entries ∧ ps[i] = pyJoin d n ∧ ns[i] = digitRuns d := by
  cases hg : crawlGather uniq target entries with
  | error e => rw [file_crawler, hg] at h; cases h
  | ok pr =>
    obtain ⟨ps0, ns0⟩ := pr
    obtain ⟨hlen0, hmem0⟩ := crawlGather_shape uniq target entries ps0 ns0 hg
    rw [file_crawler, hg] at h
    simp only [Except.ok.injEq, Prod.mk.injEq] at h
    obtain ⟨hps, hns⟩ := h
    have hfst : (ns0.zip ps0).map Prod.fst = ns0 := List.map_fst_zip _ _ (le_of_eq hlen0)
    have key : (pySorted (ns0.zip ((pySorted (ns0.zip ps0)).map Prod.snd))).map Prod.fst =
        (pySorted (ns0.zip ps0)).map Prod.fst := by
      have h' := sort_pair_fst (ns0.zip ps0)
      rw [hfst] at h'
      exact h'
    have hns' : ns = (pySorted (ns0.zip ps0)).map Prod.fst := by rw [← hns, key]
    have hps' : ps = (pySorted (ns0.zip ps0)).map Prod.snd := hps.symm
    have hzip : ns.zip ps = pySorted (ns0.zip ps0) := by
      rw [hns', hps', zipFstSnd]
    have hperm : (pySorted (ns0.zip ps0)).Perm (ns0.zip ps0) := List.perm_insertionSort _ _
    constructor
    · rw [hns', hps', List.length_map, List.length_map]
    · intro i h1 h2
      have hi : i < (ns.zip ps).length := by
        rw [List.length_zip]
        exact lt_min h1 h2
      have hmem : (ns[i], ps[i]) ∈ ns.zip ps := by
        have hget : (ns.zip ps)[i] = (ns[i], ps[i]) := List.getElem_zip
        rw [← hget]
        exact List.getElem_mem hi
      rw [hzip] at hmem
      obtain ⟨d, n, hdn, hpr⟩ := hmem0 _ (hperm.subset hmem)
      refine ⟨d, n, hdn, ?_, ?_⟩
      · exact congrArg Prod.snd hpr
      · exact congrArg Prod.fst hpr

/-- Witness for C9 at a concrete input: one matched file under `a1/b2` comes
back as the single path `a1/b2/x_trajectory` paired with identity `[1, 2]`,
which is `digitRuns "a1/b2"`. -/
theorem file_crawler_pairing_witness :
    ([[1, 2]] : List (List Nat)).length = (["a1/b2/x_trajectory".data]).length ∧
      ∃ d n, (d, n) ∈ [("a1/b2".data, "x_trajectory".data)] ∧
        "a1/b2/x_trajectory".data = pyJoin d n ∧ ([1, 2] : List Nat) = digitRuns d := by
  have h := file_crawler_pairing false [("a1/b2".data, "x_trajectory".data)]
    "trajectory".data ["a1/b2/x_trajectory".data] [[1, 2]] (by decide)
  exact ⟨h.1, h.2 0 (by decide) (by decide)⟩

end BoxED
